import Mathlib

/-!
# Verification of the wallet ledger and chat-session engine

Shallow embedding of the wallet ledger (`authentication/models.py`,
`wallet/models.py`, `wallet/stripe_handler.py`), the chat-session
controller (`agents/chat_views.py`, `agents/models.py`) and the SSRF
webhook-URL validator (`agents/utils.py`).

Monetary amounts (Django `DecimalField(decimal_places=2)` values) are
embedded as integers counting currency cents: that grid carries every
storable balance exactly and is closed under the only operations the code
performs on money (`+`, `-`, comparison), with the same order.
-/

/-- Transaction kinds of `WalletTransaction.TRANSACTION_TYPES`
(`wallet/models.py`). -/
inductive TransactionType where
  | top_up
  | agent_usage
  | refund
deriving DecidableEq, Repr

/-- One `WalletTransaction` row (`wallet/models.py`): signed amount, kind,
description, the agent slug (for usage entries) and the Stripe session id
(the external payment reference; blank when absent). -/
structure WalletTransaction where
  amount : Int
  type : TransactionType
  description : String
  agent_slug : String
  stripe_session_id : String
deriving DecidableEq, Repr

/-- The per-user wallet state touched by `User.deduct_balance` and
`User.add_balance` (`authentication/models.py`): the `wallet_balance`
column plus the user\x27s ledger of `WalletTransaction` rows, in creation
order. -/
structure Wallet where
  wallet_balance : Int
  transactions : List WalletTransaction
deriving DecidableEq, Repr

/-- `get_balance`: reading `user.wallet_balance`. -/
def get_balance (w : Wallet) : Int :=
  w.wallet_balance

/-- `User.deduct_balance` (`authentication/models.py` lines 31-76): inside
one atomic transaction, if the balance covers `amount` it is decremented
and one `agent_usage` entry with amount `-amount` is appended and the call
returns `True`; otherwise the call returns `False` and nothing changes.
The embedding returns the flag with the post-state. -/
def deduct_balance (w : Wallet) (amount : Int) (description : String)
    (agent_slug : String) : Bool × Wallet :=
  if w.wallet_balance ≥ amount then
    (true,
      { wallet_balance := w.wallet_balance - amount
        transactions := w.transactions ++
          [{ amount := -amount
             type := TransactionType.agent_usage
             description := description
             agent_slug := agent_slug
             stripe_session_id := "" }] })
  else
    (false, w)

/-- `User.add_balance` (`authentication/models.py` lines 78-119): inside
one atomic transaction the balance is incremented by `amount` and one
`top_up` entry with amount `amount` and the given Stripe session id is
appended.  There is no balance or sign check. -/
def add_balance (w : Wallet) (amount : Int) (description : String)
    (stripe_session_id : String) : Wallet :=
  { wallet_balance := w.wallet_balance + amount
    transactions := w.transactions ++
      [{ amount := amount
         type := TransactionType.top_up
         description := description
         agent_slug := ""
         stripe_session_id := stripe_session_id }] }

/-- The deduplicating deposit of `StripePaymentHandler.verify_payment`
(`wallet/stripe_handler.py` lines 151-183; `handle_webhook` repeats the
same logic): look for an existing `WalletTransaction` whose
`stripe_session_id` equals the payment reference; credit through
`add_balance` only when none exists.  Both branches report success. -/
def verify_payment_credit (w : Wallet) (amount : Int) (session_id : String) :
    Bool × Wallet :=
  if w.transactions.any (fun t => t.stripe_session_id == session_id) then
    (true, w)
  else
    (true, add_balance w amount "Wallet top-up via Stripe" session_id)

/-- A deposit or withdraw request against one account, carrying the
arguments the two primitives receive. -/
inductive LedgerOp where
  | deposit (amount : Int) (description : String) (stripe_session_id : String)
  | withdraw (amount : Int) (description : String) (agent_slug : String)
deriving DecidableEq, Repr

/-- Apply one ledger operation: a deposit runs `add_balance`, a withdraw
runs `deduct_balance` (dropping the success flag). -/
def applyLedgerOp (w : Wallet) : LedgerOp → Wallet
  | LedgerOp.deposit a d r => add_balance w a d r
  | LedgerOp.withdraw a d s => (deduct_balance w a d s).2

/-- Apply a finite sequence of ledger operations in order. -/
def applyLedgerOps (w : Wallet) (ops : List LedgerOp) : Wallet :=
  ops.foldl applyLedgerOp w

/-- Sum of the signed amounts of a list of ledger entries. -/
def transactionSum (ts : List WalletTransaction) : Int :=
  (ts.map (fun t => t.amount)).sum

/-- A ledger operation whose deposit amount is non-negative (withdraws are
unconstrained). -/
def LedgerOp.depositNonneg : LedgerOp → Bool
  | LedgerOp.deposit a _ _ => decide (0 ≤ a)
  | LedgerOp.withdraw _ _ _ => true

/-! ## Decoded JSON bodies and gateway response normalization -/

/-- A decoded JSON value, as produced by `response.json()`.  Objects are
association lists in insertion order (Python dict key lookup is modelled
by first match). -/
inductive Json where
  | str (s : String)
  | num (n : Int)
  | bool (b : Bool)
  | null
  | arr (items : List Json)
  | obj (fields : List (String × Json))

mutual

/-- Python `repr` of a decoded JSON value (strings quoted, `True`,
`None`, dict/list syntax), as far as the straightforward cases reach. -/
def pyRepr : Json → String
  | Json.str s => "\x27" ++ s ++ "\x27"
  | Json.num n => toString n
  | Json.bool b => if b then "True" else "False"
  | Json.null => "None"
  | Json.arr items => "[" ++ String.intercalate ", " (pyReprList items) ++ "]"
  | Json.obj fields => "\x7b" ++
      String.intercalate ", " (pyReprFields fields) ++ "\x7d"

/-- `repr` of each array element, in order. -/
def pyReprList : List Json → List String
  | [] => []
  | j :: rest => pyRepr j :: pyReprList rest

/-- `repr` of each `key: value` pair of an object, in order. -/
def pyReprFields : List (String × Json) → List String
  | [] => []
  | f :: rest => ("\x27" ++ f.1 ++ "\x27: " ++ pyRepr f.2) :: pyReprFields rest

end

/-- Python `str` of a decoded JSON value: a top-level string prints bare,
everything else prints as its `repr`. -/
def pyStr : Json → String
  | Json.str s => s
  | j => pyRepr j

/-- The candidate response field names of `send_chat_message`
(`agents/chat_views.py` line 247), in priority order. -/
def possible_fields : List String :=
  ["output", "response", "message", "reply", "result", "text", "content"]

/-- First value bound to `key` in a decoded JSON object (Python
`field in d` / `d[field]`). -/
def lookupKey : List (String × Json) → String → Option Json
  | [], _ => none
  | f :: rest, key => if f.1 == key then some f.2 else lookupKey rest key

/-- The value of the first `possible_fields` name present in the object
(the `for field in possible_fields: if field in d: ...; break` loop). -/
def findResponseField (fields : List (String × Json)) : Option Json :=
  possible_fields.findSome? (lookupKey fields)

/-- The Python variable `agent_response` right after the shape dispatch of
`send_chat_message` (`agents/chat_views.py` lines 245-269): `none` encodes
Python `None`, which triggers the debug fallback.  A matched field whose
value is JSON `null` also leaves the variable `None`, hence the collapse
in `normalizeGatewayResponse`. -/
def agentResponseRaw : Json → Option Json
  | Json.arr (first :: _) =>
    match first with
    | Json.obj fields => findResponseField fields
    | Json.str s => some (Json.str s)
    | _ => none
  | Json.obj fields => findResponseField fields
  | Json.str s => some (Json.str s)
  | _ => none

/-- The debug fallback string of `agents/chat_views.py` line 273:
`str(response_data)` truncated to 200 characters inside a fixed sentence. -/
def fallbackDebugString (body : Json) : String :=
  "N8N Response received but couldn\x27t parse: " ++
    (pyStr body).take 200 ++ "..."

/-- Normalization of a decoded 200-response body into the stored agent
text (`agents/chat_views.py` lines 242-279): shape dispatch, then
`str(agent_response)`, with the debug fallback when `agent_response` ended
up `None`. -/
def normalizeGatewayResponse (body : Json) : String :=
  match agentResponseRaw body with
  | some Json.null => fallbackDebugString body
  | some v => pyStr v
  | none => fallbackDebugString body

/-- Modelled from the spec (§4.3 of the gateway contract, restated by the
claim): unwrap a non-empty array to its first element; search an object
for the candidate field names in priority order; use a bare string
directly; otherwise fall back to the truncated debug rendering.  Stated
separately so the source translation can be compared against it. -/
def normalizeSpec (body : Json) : String :=
  match body with
  | Json.arr (first :: _) =>
    match first with
    | Json.obj fields =>
      match findResponseField fields with
      | some v => pyStr v
      | none => fallbackDebugString body
    | Json.str s => s
    | _ => fallbackDebugString body
  | Json.obj fields =>
    match findResponseField fields with
    | some v => pyStr v
    | none => fallbackDebugString body
  | Json.str s => s
  | _ => fallbackDebugString body

/-- Whether the shape dispatch matched a field whose value is JSON
`null` (the one spot where Python `None` conflates "no field matched"
with "the matched field holds null"). -/
def matchedNull (body : Json) : Bool :=
  match agentResponseRaw body with
  | some Json.null => true
  | _ => false

/-! ## Chat sessions and the SendMessage controller -/

/-- `ChatSession.STATUS_CHOICES` (`agents/models.py`). -/
inductive SessionStatus where
  | active
  | completed
  | expired
  | abandoned
  | failed
deriving DecidableEq, Repr

/-- `ChatMessage.MESSAGE_TYPE_CHOICES` (`agents/models.py`). -/
inductive MessageType where
  | user
  | agent
  | system
deriving DecidableEq, Repr

/-- The `metadata` JSON attached to a `ChatMessage`: empty (default), the
success-path record of the webhook response, or the error record of the
two failure paths of `send_chat_message`. -/
inductive MessageMeta where
  | empty
  | webhookResponse (body : Json) (raw : String)
  | errorInfo (e : String)

/-- One `ChatMessage` row (`agents/models.py`). -/
structure ChatMsg where
  message_type : MessageType
  content : String
  metadata : MessageMeta

/-- The mutable part of a `ChatSession` row that `send_chat_message`
touches.  Time is a `Nat` tick count; `expires_at` is optional exactly as
the nullable column is. -/
structure ChatSessionState where
  status : SessionStatus
  expires_at : Option Nat
  completed_at : Option Nat
deriving Repr

/-- `ChatSession.is_expired` (`agents/models.py` lines 80-84): a session
without `expires_at` never expires; otherwise expired iff `now` is
strictly past `expires_at`. -/
def is_expired (s : ChatSessionState) (now : Nat) : Bool :=
  match s.expires_at with
  | none => false
  | some t => decide (t < now)

/-- The 30-minute session TTL, in seconds (`timedelta(minutes=30)`). -/
def sessionTTL : Nat := 30 * 60

/-- Number of stored `user`-type messages of a session (the
`ChatMessage.objects.filter(message_type=...).count()` query). -/
def userMessageCount (msgs : List ChatMsg) : Nat :=
  (msgs.filter (fun m => m.message_type == MessageType.user)).length

/-- Outcome of the gateway interaction of one SendMessage call, as seen by
the code after `requests.post` (or after the attempt to reach it):
a 200 reply with a decoded body and raw text, a non-200 status code, or a
raised exception (timeout, connection error, missing webhook URL, SSRF
rejection) carrying `str(e)`. -/
inductive GatewayResult where
  | ok (body : Json) (raw : String)
  | httpError (code : Nat)
  | exn (e : String)

/-- The machine-distinguishable 400-reasons of `send_chat_message`. -/
inductive SendErr where
  | sessionExpired
  | messageLimitReached
deriving DecidableEq, Repr

/-- Result of one `send_chat_message` call: the DRF HTTP status code, the
error reason (for the 400 rejections), the two messages echoed in the
response body (when stored), the session row and message log after the
call, and whether control reached the gateway-invocation section. -/
structure SendResult where
  httpStatus : Nat
  err : Option SendErr
  returnedUser : Option ChatMsg
  returnedAgent : Option ChatMsg
  sess : ChatSessionState
  msgs : List ChatMsg
  reachedGateway : Bool

/-- `send_chat_message` (`agents/chat_views.py` lines 142-342), from the
point where the owned `active` session has been looked up: the expiry
check, the user-message-limit check (auto-completing the session), the
user-message insert, and the three gateway outcomes — 200 with the
normalized reply stored and the expiry extended, non-200 with the stored
apology and DRF status 202, exception with the stored apology and DRF
status 500.  `limit` is the resolved `message_limit` (agent value or the
default 50); `gw` is the gateway outcome of this call. -/
def send_chat_message (sess : ChatSessionState) (msgs : List ChatMsg)
    (limit : Nat) (now : Nat) (content : String) (gw : GatewayResult) :
    SendResult :=
  if is_expired sess now then
    { httpStatus := 400
      err := some SendErr.sessionExpired
      returnedUser := none
      returnedAgent := none
      sess := { sess with status := SessionStatus.expired }
      msgs := msgs
      reachedGateway := false }
  else if userMessageCount msgs ≥ limit then
    { httpStatus := 400
      err := some SendErr.messageLimitReached
      returnedUser := none
      returnedAgent := none
      sess := { sess with
                status := SessionStatus.completed
                completed_at := some now }
      msgs := msgs
      reachedGateway := false }
  else
    let userMsg : ChatMsg :=
      { message_type := MessageType.user
        content := content
        metadata := MessageMeta.empty }
    let msgs1 := msgs ++ [userMsg]
    match gw with
    | GatewayResult.ok body raw =>
      let agentMsg : ChatMsg :=
        { message_type := MessageType.agent
          content := normalizeGatewayResponse body
          metadata := MessageMeta.webhookResponse body raw }
      { httpStatus := 200
        err := none
        returnedUser := some userMsg
        returnedAgent := some agentMsg
        sess := { sess with expires_at := some (now + sessionTTL) }
        msgs := msgs1 ++ [agentMsg]
        reachedGateway := true }
    | GatewayResult.httpError code =>
      let agentMsg : ChatMsg :=
        { message_type := MessageType.agent
          content :=
            "I\x27m having trouble processing your message right now. Please try again."
          metadata := MessageMeta.errorInfo ("Webhook returned " ++ toString code) }
      { httpStatus := 202
        err := none
        returnedUser := some userMsg
        returnedAgent := some agentMsg
        sess := sess
        msgs := msgs1 ++ [agentMsg]
        reachedGateway := true }
    | GatewayResult.exn e =>
      let agentMsg : ChatMsg :=
        { message_type := MessageType.agent
          content :=
            "I\x27m experiencing technical difficulties. Please try again later."
          metadata := MessageMeta.errorInfo e }
      { httpStatus := 500
        err := none
        returnedUser := some userMsg
        returnedAgent := some agentMsg
        sess := sess
        msgs := msgs1 ++ [agentMsg]
        reachedGateway := true }

/-! ## The StartSession controller -/

/-- One agent definition as returned by
`AgentFileService.get_agent_by_slug` (external, file-backed lookup). -/
structure AgentData where
  slug : String
  name : String
  price : Int
  webhook_url : String
  message_limit : Nat
  agent_type : String
  is_active : Bool

/-- The `ChatSession` fields that `start_chat_session` writes or filters
on, for one fixed user (all queries in the view are scoped to
`request.user`). -/
structure SessionRec where
  session_id : String
  agent_slug : String
  status : SessionStatus
  fee_charged : Int
  expires_at : Nat

/-- The per-user state `start_chat_session` touches: the wallet, the
user\x27s `ChatSession` rows in creation order, and the `ChatMessage` rows
keyed by owning `session_id`. -/
structure StartState where
  wallet : Wallet
  sessions : List SessionRec
  messages : List (String × ChatMsg)

/-- The distinguishable responses of `start_chat_session`. -/
inductive StartOutcome where
  | agentNotFound
  | insufficientBalance
  | existingSession (session_id : String)
  | paymentFailed
  | started (session_id : String)
deriving DecidableEq, Repr

/-- The fixed welcome message text is interpolated with the agent name;
only the shape matters to the claims, so the prefix stands for the full
markdown body of `agents/chat_views.py` lines 110-125. -/
def welcomeMessage (agentName : String) : String :=
  "## Welcome to " ++ agentName ++ "! 🔍" ++
    " I\x27m here to guide you through the **5 Whys methodology** ..."

/-- `start_chat_session` (`agents/chat_views.py` lines 37-136), from the
point where the input is validated: agent lookup and activity/type check,
the wallet pre-check, the existing-active-session short-circuit, then
creation of the session row, the fee deduction (deleting the row again if
the deduction reports failure) and the welcome message.  `agent?` is the
lookup result for the requested slug; `newSid` the generated session id;
`now` the current tick. -/
def start_chat_session (st : StartState) (agent? : Option AgentData)
    (newSid : String) (now : Nat) : StartOutcome × StartState :=
  match agent? with
  | none => (StartOutcome.agentNotFound, st)
  | some agent =>
    if ¬ (agent.is_active && agent.agent_type == "chat") then
      (StartOutcome.agentNotFound, st)
    else if st.wallet.wallet_balance < agent.price then
      (StartOutcome.insufficientBalance, st)
    else
      match st.sessions.find? (fun s =>
          s.agent_slug == agent.slug && s.status == SessionStatus.active) with
      | some existing => (StartOutcome.existingSession existing.session_id, st)
      | none =>
        let newSession : SessionRec :=
          { session_id := newSid
            agent_slug := agent.slug
            status := SessionStatus.active
            fee_charged := agent.price
            expires_at := now + sessionTTL }
        let paid := deduct_balance st.wallet agent.price
          (agent.name ++ " - Chat Session " ++ newSid) agent.slug
        if paid.1 then
          (StartOutcome.started newSid,
            { wallet := paid.2
              sessions := st.sessions ++ [newSession]
              messages := st.messages ++
                [(newSid,
                  { message_type := MessageType.agent
                    content := welcomeMessage agent.name
                    metadata := MessageMeta.empty })] })
        else
          (StartOutcome.paymentFailed,
            { wallet := paid.2
              sessions := st.sessions
              messages := st.messages })

/-! ## The webhook URL validator (SSRF guard) -/

/-- Does `sub` occur at the head of `l`? -/
def seqStartsWith : List Char → List Char → Bool
  | _, [] => true
  | [], _ :: _ => false
  | a :: as, b :: bs => a == b && seqStartsWith as bs

/-- Does `sub` occur anywhere inside `l` (Python `sub in s`)? -/
def seqContains : List Char → List Char → Bool
  | [], sub => seqStartsWith [] sub
  | l@(_ :: rest), sub => seqStartsWith l sub || seqContains rest sub

/-- Python `sub in s` on strings. -/
def strContains (s sub : String) : Bool :=
  seqContains s.data sub.data

/-- Python `s.startswith(p)`. -/
def strStartsWith (s p : String) : Bool :=
  seqStartsWith s.data p.data

/-- ASCII lowercase of one character (`str.lower` restricted to the ASCII
hostnames at play). -/
def lowerChar (c : Char) : Char :=
  if c.isUpper then Char.ofNat (c.toNat + 32) else c

/-- Python `s.lower()` for ASCII strings. -/
def lowerStr (s : String) : String :=
  String.mk (s.data.map lowerChar)

/-- Split a character list on every dot (each dot separates groups, so
`"a..b"` gives three groups, the middle one empty). -/
def splitDots : List Char → List (List Char)
  | [] => [[]]
  | c :: rest =>
    let r := splitDots rest
    if c == '.' then [] :: r
    else
      match r with
      | h :: t => (c :: h) :: t
      | [] => [[c]]

/-- One decimal octet as `ipaddress` accepts it: one to three digits, no
leading zero, value at most 255. -/
def octetVal? (cs : List Char) : Option Nat :=
  if cs.length = 0 || cs.length > 3 then none
  else if ¬ cs.all Char.isDigit then none
  else if cs.length > 1 && cs.head? == some '0' then none
  else
    let v := cs.foldl (fun acc c => acc * 10 + (c.toNat - 48)) 0
    if v ≤ 255 then some v else none

/-- A parsed IPv4 address (the hostnames the claims exercise are IPv4 or
domain names; an IPv6 literal never reaches the validator here). -/
structure IPv4 where
  a : Nat
  b : Nat
  c : Nat
  d : Nat
deriving DecidableEq, Repr

/-- `ipaddress.ip_address(hostname)` for dotted-quad IPv4 text: `none`
models the `ValueError` "does not appear to be an IPv4 or IPv6 address"
that the source swallows to continue domain validation. -/
def ipv4Parse (host : String) : Option IPv4 :=
  match splitDots host.data with
  | [g1, g2, g3, g4] =>
    match octetVal? g1, octetVal? g2, octetVal? g3, octetVal? g4 with
    | some x, some y, some z, some w => some (IPv4.mk x y z w)
    | _, _, _, _ => none
  | _ => none

/-- `IPv4Address.is_loopback` (127.0.0.0/8). -/
def IPv4.is_loopback (ip : IPv4) : Bool := ip.a == 127

/-- `IPv4Address.is_link_local` (169.254.0.0/16). -/
def IPv4.is_link_local (ip : IPv4) : Bool := ip.a == 169 && ip.b == 254

/-- `IPv4Address.is_multicast` (224.0.0.0/4). -/
def IPv4.is_multicast (ip : IPv4) : Bool :=
  decide (224 ≤ ip.a) && decide (ip.a ≤ 239)

/-- `IPv4Address.is_reserved` (240.0.0.0/4). -/
def IPv4.is_reserved (ip : IPv4) : Bool := decide (240 ≤ ip.a)

/-- `IPv4Address.is_unspecified` (0.0.0.0). -/
def IPv4.is_unspecified (ip : IPv4) : Bool :=
  ip.a == 0 && ip.b == 0 && ip.c == 0 && ip.d == 0

/-- `IPv4Address.is_private`: membership in the standard private network
list of `ipaddress` (0/8, 10/8, 127/8, 169.254/16, 172.16/12, 192.0.0/29,
192.0.0.170/31, 192.0.2/24, 192.168/16, 198.18/15, 198.51.100/24,
203.0.113/24, 240/4, 255.255.255.255). -/
def IPv4.is_private (ip : IPv4) : Bool :=
  ip.a == 0 || ip.a == 10 || ip.a == 127 ||
  (ip.a == 169 && ip.b == 254) ||
  (ip.a == 172 && decide (16 ≤ ip.b) && decide (ip.b ≤ 31)) ||
  (ip.a == 192 && ip.b == 0 && ip.c == 0 && decide (ip.d ≤ 7)) ||
  (ip.a == 192 && ip.b == 0 && ip.c == 0 && (ip.d == 170 || ip.d == 171)) ||
  (ip.a == 192 && ip.b == 0 && ip.c == 2) ||
  (ip.a == 192 && ip.b == 168) ||
  (ip.a == 198 && (ip.b == 18 || ip.b == 19)) ||
  (ip.a == 198 && ip.b == 51 && ip.c == 100) ||
  (ip.a == 203 && ip.b == 0 && ip.c == 113) ||
  decide (240 ≤ ip.a)

/-- The decomposition `urlparse` (Python stdlib, external) produces for a
webhook URL: the raw text kept for the `internal://` prefix test, the
scheme, the hostname (empty when `urlparse` yields `None`) and the port. -/
structure UrlParts where
  raw : String
  scheme : String
  hostname : String
  port : Option Nat

/-- `allowed_dev_ports` (`agents/utils.py` lines 52 and 71). -/
def allowed_dev_ports : List Nat := [5678, 8000, 8080, 3000]

/-- `localhost_patterns` (`agents/utils.py` lines 43-46). -/
def localhost_patterns : List String :=
  ["localhost", "127.0.0.1", "0.0.0.0", "::1", "local", "internal", "private"]

/-- `suspicious_patterns` (`agents/utils.py` lines 86-89). -/
def suspicious_patterns : List String :=
  [".local", ".internal", ".private", ".corp", ".lan",
   "metadata", "instance-data", "user-data"]

/-- Is the URL port on the development allow-list (Python
`parsed.port in allowed_dev_ports`, `None` never a member)? -/
def portAllowed (port : Option Nat) : Bool :=
  match port with
  | some p => allowed_dev_ports.contains p
  | none => false

/-- The IP-literal section of `validate_webhook_url` (`agents/utils.py`
lines 57-80): classify a hostname that parses as an IP; a hostname that
is not an IP falls through to domain validation. -/
def ipSectionCheck (debug : Bool) (hostname : String) (port : Option Nat) :
    Except String Unit :=
  match ipv4Parse hostname with
  | some ip =>
    if ¬ debug then
      if ip.is_private || ip.is_loopback || ip.is_reserved ||
          ip.is_link_local || ip.is_multicast || ip.is_unspecified then
        Except.error "Internal/private IP addresses not allowed in production"
      else
        Except.ok ()
    else
      if ip.is_loopback then
        if portAllowed port then
          Except.ok ()
        else
          Except.error "Loopback IP only allowed on ports [5678, 8000, 8080, 3000]"
      else if ip.is_private || ip.is_reserved || ip.is_link_local ||
          ip.is_multicast || ip.is_unspecified then
        Except.error "Internal/private IP addresses not allowed"
      else
        Except.ok ()
  | none => Except.ok ()

/-- `validate_webhook_url` (`agents/utils.py` lines 14-99) before the
outer exception rewrap: the `internal://` sentinel, the scheme check, the
hostname check, the production HTTPS requirement, the production
localhost-marker rejection, the development localhost port allow-list
early accept, the IP-literal section, and the production suspicious-domain
check.  `debug` is `settings.DEBUG`: `false` is strict (production) mode,
`true` permissive (development) mode. -/
def validate_webhook_url_checks (debug : Bool) (u : UrlParts) :
    Except String Unit :=
  if strStartsWith u.raw "internal://" then Except.ok ()
  else if ¬ (u.scheme == "http" || u.scheme == "https") then
    Except.error "Only HTTP/HTTPS URLs are allowed"
  else if u.hostname == "" then
    Except.error "Invalid hostname in URL"
  else if ¬ debug && ¬ (u.scheme == "https") then
    Except.error "Only HTTPS URLs allowed in production"
  else if ¬ debug &&
      localhost_patterns.any (fun p => strContains (lowerStr u.hostname) p) then
    Except.error "Localhost/internal addresses not allowed in production"
  else if debug && (u.hostname == "localhost" || u.hostname == "127.0.0.1") &&
      portAllowed u.port then
    Except.ok ()
  else
    match ipSectionCheck debug u.hostname u.port with
    | Except.error e => Except.error e
    | Except.ok _ =>
      if ¬ debug &&
          suspicious_patterns.any (fun p =>
            strContains (lowerStr u.hostname) p) then
        Except.error ("Suspicious domain pattern detected: " ++ u.hostname)
      else
        Except.ok ()

/-- `validate_webhook_url` with the outer `except` rewrap of
`agents/utils.py` lines 97-99: every rejection surfaces as
`Invalid webhook URL: <reason>`. -/
def validate_webhook_url (debug : Bool) (u : UrlParts) :
    Except String Unit :=
  match validate_webhook_url_checks debug u with
  | Except.ok _ => Except.ok ()
  | Except.error e => Except.error ("Invalid webhook URL: " ++ e)

/-- Did the validator accept the URL? -/
def urlAccepted (debug : Bool) (u : UrlParts) : Bool :=
  match validate_webhook_url debug u with
  | Except.ok _ => true
  | Except.error _ => false

/-! ## Ledger theorems -/

/-- Appending one entry adds its amount to the ledger sum. -/
theorem transactionSum_append (ts : List WalletTransaction)
    (t : WalletTransaction) :
    transactionSum (ts ++ [t]) = transactionSum ts + t.amount := by
  simp [transactionSum]

/-- Claim C1: `withdraw` returns `false` and creates no ledger entry when
the balance is below the amount; otherwise it returns `true`, decrements
the balance by exactly the amount, and appends exactly one `agent_usage`
entry recording the negated amount, both applied in the same atomic
transaction (one state update in the embedding). -/
theorem C1_withdraw_spec (w : Wallet) (amount : Int) (d s : String) :
    (w.wallet_balance < amount →
      deduct_balance w amount d s = (false, w)) ∧
    (amount ≤ w.wallet_balance →
      (deduct_balance w amount d s).1 = true ∧
      (deduct_balance w amount d s).2.wallet_balance =
        w.wallet_balance - amount ∧
      (deduct_balance w amount d s).2.transactions =
        w.transactions ++
          [{ amount := -amount
             type := TransactionType.agent_usage
             description := d
             agent_slug := s
             stripe_session_id := "" }]) := by
  constructor
  · intro h
    have h2 : ¬ (w.wallet_balance ≥ amount) := not_le.mpr h
    simp [deduct_balance, h2]
  · intro h
    have h2 : w.wallet_balance ≥ amount := h
    simp [deduct_balance, h2]

/-- Witness for C1 at concrete inputs: balance 3 rejects a withdrawal of
5 unchanged, and balance 5 accepts a withdrawal of 3. -/
theorem C1_withdraw_spec_witness :
    deduct_balance { wallet_balance := 3, transactions := [] } 5 "d" "s" =
      (false, { wallet_balance := 3, transactions := [] }) ∧
    (deduct_balance { wallet_balance := 5, transactions := [] } 3 "d" "s").1 =
      true :=
  ⟨(C1_withdraw_spec { wallet_balance := 3, transactions := [] } 5 "d" "s").1
      (by decide),
   ((C1_withdraw_spec { wallet_balance := 5, transactions := [] } 3 "d" "s").2
      (by decide)).1⟩

/-- The balance-minus-ledger-sum difference is invariant under any single
ledger operation and hence any sequence of them. -/
theorem ledgerDelta (ops : List LedgerOp) : ∀ w : Wallet,
    (applyLedgerOps w ops).wallet_balance -
        transactionSum (applyLedgerOps w ops).transactions =
      w.wallet_balance - transactionSum w.transactions := by
  induction ops with
  | nil => intro w; rfl
  | cons op ops ih =>
    intro w
    have hrec : applyLedgerOps w (op :: ops) =
        applyLedgerOps (applyLedgerOp w op) ops := rfl
    rw [hrec, ih (applyLedgerOp w op)]
    cases op with
    | deposit a d r =>
      simp [applyLedgerOp, add_balance, transactionSum_append]
    | withdraw a d s =>
      by_cases h : w.wallet_balance ≥ a
      · simp [applyLedgerOp, deduct_balance, h, transactionSum_append]
        ring
      · simp [applyLedgerOp, deduct_balance, h]

/-- Claim C2: starting from an account with balance `b0` and an empty
ledger, after any finite sequence of deposit and withdraw operations the
balance equals `b0` plus the sum of all recorded entry amounts (deposits
positive, successful withdrawals negative, failed withdrawals absent). -/
theorem C2_ledger_conservation (b0 : Int) (ops : List LedgerOp) :
    get_balance (applyLedgerOps { wallet_balance := b0, transactions := [] } ops) =
      b0 + transactionSum
        (applyLedgerOps { wallet_balance := b0, transactions := [] } ops).transactions := by
  have h := ledgerDelta ops { wallet_balance := b0, transactions := [] }
  have h2 : ({ wallet_balance := b0, transactions := [] } : Wallet).wallet_balance -
      transactionSum ({ wallet_balance := b0, transactions := [] } : Wallet).transactions = b0 := by
    simp [transactionSum]
  rw [h2] at h
  unfold get_balance
  linarith

/-- Claim C3 counterexample: the claim quantifies over arbitrary amount
arguments, but `add_balance` never checks the sign of its amount, so a
deposit of `-1` drives a zero balance negative. -/
theorem C3_counterexample :
    (0 : Int) ≤ get_balance { wallet_balance := 0, transactions := [] } ∧
    get_balance (applyLedgerOps { wallet_balance := 0, transactions := [] }
      [LedgerOp.deposit (-1) "d" ""]) < 0 := by
  constructor
  · simp [get_balance]
  · simp [applyLedgerOps, applyLedgerOp, add_balance, get_balance]

/-- Claim C3 as amended: when every deposit in the sequence carries a
non-negative amount (withdraw amounts stay arbitrary), a non-negative
starting balance never goes below zero. -/
theorem C3_no_negative_balance (ops : List LedgerOp) : ∀ w : Wallet,
    0 ≤ w.wallet_balance →
    (∀ op ∈ ops, op.depositNonneg = true) →
    0 ≤ get_balance (applyLedgerOps w ops) := by
  induction ops with
  | nil => intro w h0 _; exact h0
  | cons op ops ih =>
    intro w h0 hdep
    have hrec : applyLedgerOps w (op :: ops) =
        applyLedgerOps (applyLedgerOp w op) ops := rfl
    rw [hrec]
    have hop : op.depositNonneg = true := hdep op (List.mem_cons_self op ops)
    have hrest : ∀ o ∈ ops, o.depositNonneg = true := by
      intro o ho
      exact hdep o (List.mem_cons_of_mem op ho)
    apply ih (applyLedgerOp w op) _ hrest
    cases op with
    | deposit a d r =>
      have ha : (0 : Int) ≤ a := by
        simpa [LedgerOp.depositNonneg] using hop
      simp [applyLedgerOp, add_balance]
      linarith
    | withdraw a d s =>
      by_cases h : w.wallet_balance ≥ a
      · simp [applyLedgerOp, deduct_balance, h]
      · simpa [applyLedgerOp, deduct_balance, h] using h0

/-- Witness for C3 as amended, at a concrete run: balance 5, a deposit of
2, an uncovered withdraw of 100 and a covered withdraw of 3. -/
theorem C3_no_negative_balance_witness :
    0 ≤ get_balance (applyLedgerOps { wallet_balance := 5, transactions := [] }
      [LedgerOp.deposit 2 "d" "", LedgerOp.withdraw 100 "w" "s",
       LedgerOp.withdraw 3 "w" "s"]) :=
  C3_no_negative_balance
    [LedgerOp.deposit 2 "d" "", LedgerOp.withdraw 100 "w" "s",
     LedgerOp.withdraw 3 "w" "s"]
    { wallet_balance := 5, transactions := [] } (by decide) (by decide)

/-- Claim C4: for a fresh non-empty payment reference, running the
verify-payment deposit twice credits the balance exactly once — the
second call is a no-op on the state that still reports success — and
exactly one `top_up` entry carries the reference. -/
theorem C4_idempotent_deposit (w : Wallet) (amount : Int) (ref : String)
    (href : ref ≠ "")
    (hfresh : w.transactions.any (fun t => t.stripe_session_id == ref) = false) :
    (verify_payment_credit w amount ref).1 = true ∧
    (verify_payment_credit (verify_payment_credit w amount ref).2 amount ref).1 =
      true ∧
    (verify_payment_credit (verify_payment_credit w amount ref).2 amount ref).2 =
      (verify_payment_credit w amount ref).2 ∧
    get_balance
        (verify_payment_credit (verify_payment_credit w amount ref).2 amount ref).2 =
      get_balance w + amount ∧
    ((verify_payment_credit (verify_payment_credit w amount ref).2 amount ref).2.transactions.filter
        (fun t => t.stripe_session_id == ref)).length = 1 := by
  have h1 : verify_payment_credit w amount ref =
      (true, add_balance w amount "Wallet top-up via Stripe" ref) := by
    simp [verify_payment_credit, hfresh]
  have h2 : (add_balance w amount "Wallet top-up via Stripe" ref).transactions.any
      (fun t => t.stripe_session_id == ref) = true := by
    simp [add_balance]
  have h3 : verify_payment_credit
      (add_balance w amount "Wallet top-up via Stripe" ref) amount ref =
      (true, add_balance w amount "Wallet top-up via Stripe" ref) := by
    simp [verify_payment_credit, h2]
  have hnil : w.transactions.filter (fun t => t.stripe_session_id == ref) = [] := by
    rw [List.filter_eq_nil_iff]
    intro t ht
    have := (List.any_eq_false.mp hfresh) t ht
    simpa using this
  rw [h1, h3]
  refine ⟨rfl, rfl, rfl, ?_, ?_⟩
  · simp [get_balance, add_balance]
  · simp [add_balance, List.filter_append, hnil]

/-- Witness for C4 at a concrete input: empty ledger, amount 10,
reference "cs_1". -/
theorem C4_idempotent_deposit_witness :
    (verify_payment_credit { wallet_balance := 0, transactions := [] } 10 "cs_1").1 =
      true ∧
    (verify_payment_credit
        (verify_payment_credit { wallet_balance := 0, transactions := [] } 10 "cs_1").2
        10 "cs_1").1 = true ∧
    (verify_payment_credit
        (verify_payment_credit { wallet_balance := 0, transactions := [] } 10 "cs_1").2
        10 "cs_1").2 =
      (verify_payment_credit { wallet_balance := 0, transactions := [] } 10 "cs_1").2 ∧
    get_balance
        (verify_payment_credit
          (verify_payment_credit { wallet_balance := 0, transactions := [] } 10 "cs_1").2
          10 "cs_1").2 =
      get_balance { wallet_balance := 0, transactions := [] } + 10 ∧
    ((verify_payment_credit
        (verify_payment_credit { wallet_balance := 0, transactions := [] } 10 "cs_1").2
        10 "cs_1").2.transactions.filter
          (fun t => t.stripe_session_id == "cs_1")).length = 1 :=
  C4_idempotent_deposit { wallet_balance := 0, transactions := [] } 10 "cs_1"
    (by decide) (by decide)

/-- Claim C5: `deduct_balance` runs its read-check-write-append under a
`select_for_update` row lock inside one atomic transaction, so two
concurrent withdrawals of the same account serialize; this states both
serialization orders at once (the two calls are symmetric up to their
description strings).  With `A ≤ B < 2A`, the first serialized call
succeeds, the second returns the insufficient-funds `false`, the final
balance is `B - A`, and exactly one `agent_usage` entry was appended. -/
theorem C5_concurrent_withdraw (w : Wallet) (A : Int) (d1 s1 d2 s2 : String)
    (h1 : A ≤ w.wallet_balance) (h2 : w.wallet_balance < 2 * A) :
    (deduct_balance w A d1 s1).1 = true ∧
    (deduct_balance (deduct_balance w A d1 s1).2 A d2 s2).1 = false ∧
    get_balance (deduct_balance (deduct_balance w A d1 s1).2 A d2 s2).2 =
      w.wallet_balance - A ∧
    (deduct_balance (deduct_balance w A d1 s1).2 A d2 s2).2.transactions =
      w.transactions ++
        [{ amount := -A
           type := TransactionType.agent_usage
           description := d1
           agent_slug := s1
           stripe_session_id := "" }] := by
  have hge : w.wallet_balance ≥ A := h1
  have hlt : w.wallet_balance - A < A := by linarith
  have hn : ¬ (w.wallet_balance - A ≥ A) := not_le.mpr hlt
  simp [deduct_balance, hge, hn, get_balance]

/-- Witness for C5 at the spec\x27s concrete race: balance 10, two
withdrawals of 6 — one success, one failure, final balance 4. -/
theorem C5_concurrent_withdraw_witness :
    (deduct_balance { wallet_balance := 10, transactions := [] } 6 "a" "x").1 =
      true ∧
    (deduct_balance
        (deduct_balance { wallet_balance := 10, transactions := [] } 6 "a" "x").2
        6 "b" "y").1 = false ∧
    get_balance
        (deduct_balance
          (deduct_balance { wallet_balance := 10, transactions := [] } 6 "a" "x").2
          6 "b" "y").2 =
      10 - 6 ∧
    (deduct_balance
        (deduct_balance { wallet_balance := 10, transactions := [] } 6 "a" "x").2
        6 "b" "y").2.transactions =
      [] ++
        [{ amount := -6
           type := TransactionType.agent_usage
           description := "a"
           agent_slug := "x"
           stripe_session_id := "" }] :=
  C5_concurrent_withdraw { wallet_balance := 10, transactions := [] } 6 "a" "x"
    "b" "y" (by decide) (by decide)

/-! ## SendMessage theorems -/

/-- Splitting a message log splits its user-message count. -/
theorem userMessageCount_append (xs ys : List ChatMsg) :
    userMessageCount (xs ++ ys) = userMessageCount xs + userMessageCount ys := by
  simp [userMessageCount, List.filter_append]

/-- Claim C6 counterexample: on an owned, active, non-expired session
below the message limit, a gateway failure raised as an exception (a
timeout, a connection error) is answered with HTTP status 500 — a hard
error status, not a non-error "non-blocking" one. -/
theorem C6_counterexample :
    (send_chat_message
        { status := SessionStatus.active, expires_at := some 100, completed_at := none }
        [] 50 0 "hello" (GatewayResult.exn "Read timed out")).httpStatus = 500 ∧
    ¬ ((send_chat_message
        { status := SessionStatus.active, expires_at := some 100, completed_at := none }
        [] 50 0 "hello" (GatewayResult.exn "Read timed out")).httpStatus < 400) := by
  constructor
  · rfl
  · decide

/-- Claim C6 as amended: on an owned, active, non-expired session below
the limit, both gateway failure modes still store the user message plus
an apologetic agent message carrying the error in its metadata and return
both stored messages; a non-200 gateway reply is reported with the
non-error HTTP status 202, but a raised exception (timeout included) is
reported with the hard-error HTTP status 500. -/
theorem C6_gateway_failure_stores_messages (sess : ChatSessionState)
    (msgs : List ChatMsg) (limit now : Nat) (content : String) (code : Nat)
    (e : String)
    (hexp : is_expired sess now = false)
    (hcount : userMessageCount msgs < limit) :
    (send_chat_message sess msgs limit now content (GatewayResult.httpError code)).msgs =
      msgs ++
        [{ message_type := MessageType.user, content := content,
           metadata := MessageMeta.empty },
         { message_type := MessageType.agent,
           content := "I\x27m having trouble processing your message right now. Please try again.",
           metadata := MessageMeta.errorInfo ("Webhook returned " ++ toString code) }] ∧
    (send_chat_message sess msgs limit now content (GatewayResult.httpError code)).returnedUser =
      some { message_type := MessageType.user, content := content,
             metadata := MessageMeta.empty } ∧
    (send_chat_message sess msgs limit now content (GatewayResult.httpError code)).returnedAgent =
      some { message_type := MessageType.agent,
             content := "I\x27m having trouble processing your message right now. Please try again.",
             metadata := MessageMeta.errorInfo ("Webhook returned " ++ toString code) } ∧
    (send_chat_message sess msgs limit now content (GatewayResult.httpError code)).httpStatus =
      202 ∧
    (send_chat_message sess msgs limit now content (GatewayResult.exn e)).msgs =
      msgs ++
        [{ message_type := MessageType.user, content := content,
           metadata := MessageMeta.empty },
         { message_type := MessageType.agent,
           content := "I\x27m experiencing technical difficulties. Please try again later.",
           metadata := MessageMeta.errorInfo e }] ∧
    (send_chat_message sess msgs limit now content (GatewayResult.exn e)).returnedUser =
      some { message_type := MessageType.user, content := content,
             metadata := MessageMeta.empty } ∧
    (send_chat_message sess msgs limit now content (GatewayResult.exn e)).returnedAgent =
      some { message_type := MessageType.agent,
             content := "I\x27m experiencing technical difficulties. Please try again later.",
             metadata := MessageMeta.errorInfo e } ∧
    (send_chat_message sess msgs limit now content (GatewayResult.exn e)).httpStatus =
      500 := by
  have h1 : ¬ (userMessageCount msgs ≥ limit) := not_le.mpr hcount
  simp [send_chat_message, hexp, h1]

/-- Witness for C6 as amended, on a concrete fresh session, webhook
status 503 and a timeout exception. -/
theorem C6_gateway_failure_stores_messages_witness :
    (send_chat_message
        { status := SessionStatus.active, expires_at := some 100, completed_at := none }
        [] 50 0 "hi" (GatewayResult.httpError 503)).httpStatus = 202 ∧
    (send_chat_message
        { status := SessionStatus.active, expires_at := some 100, completed_at := none }
        [] 50 0 "hi" (GatewayResult.exn "timeout")).httpStatus = 500 :=
  ⟨(C6_gateway_failure_stores_messages
      { status := SessionStatus.active, expires_at := some 100, completed_at := none }
      [] 50 0 "hi" 503 "timeout" (by decide) (by decide)).2.2.2.1,
   (C6_gateway_failure_stores_messages
      { status := SessionStatus.active, expires_at := some 100, completed_at := none }
      [] 50 0 "hi" 503 "timeout" (by decide) (by decide)).2.2.2.2.2.2.2⟩

/-- Claim C7: the stored user-message count never exceeds the resolved
message limit, and a call arriving on a live session whose count has
already reached the limit is rejected with the MessageLimitReached
reason, HTTP 400, the session forced to `completed` with `completed_at`
stamped, no message stored and the gateway never invoked. -/
theorem C7_message_limit (sess : ChatSessionState) (msgs : List ChatMsg)
    (limit now : Nat) (content : String) (gw : GatewayResult) :
    (userMessageCount msgs ≤ limit →
      userMessageCount (send_chat_message sess msgs limit now content gw).msgs ≤
        limit) ∧
    (is_expired sess now = false → limit ≤ userMessageCount msgs →
      (send_chat_message sess msgs limit now content gw).err =
        some SendErr.messageLimitReached ∧
      (send_chat_message sess msgs limit now content gw).httpStatus = 400 ∧
      (send_chat_message sess msgs limit now content gw).sess.status =
        SessionStatus.completed ∧
      (send_chat_message sess msgs limit now content gw).sess.completed_at =
        some now ∧
      (send_chat_message sess msgs limit now content gw).msgs = msgs ∧
      (send_chat_message sess msgs limit now content gw).reachedGateway =
        false) := by
  constructor
  · intro hle
    by_cases hexp : is_expired sess now
    · simp [send_chat_message, hexp, hle]
    · by_cases hlim : userMessageCount msgs ≥ limit
      · simp [send_chat_message, hexp, hlim, hle]
      · have hlt : (msgs.filter (fun m => m.message_type == MessageType.user)).length <
            limit := by
          simpa [userMessageCount] using not_le.mp hlim
        have hlim2 : ¬ (limit ≤
            (msgs.filter (fun m => m.message_type == MessageType.user)).length) :=
          not_le.mpr hlt
        cases gw with
        | ok body raw =>
          simp [send_chat_message, hexp, hlim2, userMessageCount,
            List.filter_append]
          omega
        | httpError code =>
          simp [send_chat_message, hexp, hlim2, userMessageCount,
            List.filter_append]
          omega
        | exn e =>
          simp [send_chat_message, hexp, hlim2, userMessageCount,
            List.filter_append]
          omega
  · intro hexp hlim
    have hge : userMessageCount msgs ≥ limit := hlim
    simp [send_chat_message, hexp, hge]

/-- Witness for C7 on a session that already stores three user messages
with limit 3: the rejection fires and the count stays at the limit. -/
theorem C7_message_limit_witness :
    userMessageCount
      (send_chat_message
        { status := SessionStatus.active, expires_at := some 100, completed_at := none }
        [{ message_type := MessageType.user, content := "a", metadata := MessageMeta.empty },
         { message_type := MessageType.user, content := "b", metadata := MessageMeta.empty },
         { message_type := MessageType.user, content := "c", metadata := MessageMeta.empty }]
        3 7 "d" (GatewayResult.exn "unused")).msgs ≤ 3 ∧
    (send_chat_message
        { status := SessionStatus.active, expires_at := some 100, completed_at := none }
        [{ message_type := MessageType.user, content := "a", metadata := MessageMeta.empty },
         { message_type := MessageType.user, content := "b", metadata := MessageMeta.empty },
         { message_type := MessageType.user, content := "c", metadata := MessageMeta.empty }]
        3 7 "d" (GatewayResult.exn "unused")).err =
      some SendErr.messageLimitReached :=
  ⟨(C7_message_limit
      { status := SessionStatus.active, expires_at := some 100, completed_at := none }
      [{ message_type := MessageType.user, content := "a", metadata := MessageMeta.empty },
       { message_type := MessageType.user, content := "b", metadata := MessageMeta.empty },
       { message_type := MessageType.user, content := "c", metadata := MessageMeta.empty }]
      3 7 "d" (GatewayResult.exn "unused")).1 (by decide),
   ((C7_message_limit
      { status := SessionStatus.active, expires_at := some 100, completed_at := none }
      [{ message_type := MessageType.user, content := "a", metadata := MessageMeta.empty },
       { message_type := MessageType.user, content := "b", metadata := MessageMeta.empty },
       { message_type := MessageType.user, content := "c", metadata := MessageMeta.empty }]
      3 7 "d" (GatewayResult.exn "unused")).2 (by decide) (by decide)).1⟩

/-! ## StartSession theorems -/

/-- Claim C8 counterexample: with an `active` session already present for
the (account, agent) pair but a wallet balance (2) below the agent price
(5), `start_chat_session` rejects with the insufficient-balance error
instead of returning the existing session id: the wallet pre-check runs
before the existing-session lookup. -/
theorem C8_counterexample :
    (start_chat_session
        { wallet := { wallet_balance := 2, transactions := [] }
          sessions := [{ session_id := "s1", agent_slug := "five-whys",
                         status := SessionStatus.active, fee_charged := 5,
                         expires_at := 1000 }]
          messages := [] }
        (some { slug := "five-whys", name := "Five Whys", price := 5,
                webhook_url := "https://api.example.com", message_limit := 50,
                agent_type := "chat", is_active := true })
        "s2" 0).1 = StartOutcome.insufficientBalance ∧
    (start_chat_session
        { wallet := { wallet_balance := 2, transactions := [] }
          sessions := [{ session_id := "s1", agent_slug := "five-whys",
                         status := SessionStatus.active, fee_charged := 5,
                         expires_at := 1000 }]
          messages := [] }
        (some { slug := "five-whys", name := "Five Whys", price := 5,
                webhook_url := "https://api.example.com", message_limit := 50,
                agent_type := "chat", is_active := true })
        "s2" 0).1 ≠ StartOutcome.existingSession "s1" := by
  constructor
  · rfl
  · decide

/-- Claim C8 as amended: when the looked-up agent is an active chat agent
and the wallet balance covers its price, an existing `active` session for
the pair short-circuits the call — its session id is returned and the
whole state (wallet, ledger, sessions, messages) is left unchanged. -/
theorem C8_existing_session_short_circuit (st : StartState) (agent : AgentData)
    (newSid : String) (now : Nat) (ex : SessionRec)
    (hactive : agent.is_active = true)
    (htype : agent.agent_type = "chat")
    (hbal : agent.price ≤ st.wallet.wallet_balance)
    (hfind : st.sessions.find? (fun s =>
        s.agent_slug == agent.slug && s.status == SessionStatus.active) =
      some ex) :
    start_chat_session st (some agent) newSid now =
      (StartOutcome.existingSession ex.session_id, st) := by
  have hb : ¬ (st.wallet.wallet_balance < agent.price) := not_lt.mpr hbal
  simp [start_chat_session, hactive, htype, hb, hfind]

/-- Witness for C8 as amended: balance 10, price 5, an active session
"s1" already present — the call returns "s1" and changes nothing. -/
theorem C8_existing_session_short_circuit_witness :
    start_chat_session
        { wallet := { wallet_balance := 10, transactions := [] }
          sessions := [{ session_id := "s1", agent_slug := "five-whys",
                         status := SessionStatus.active, fee_charged := 5,
                         expires_at := 1000 }]
          messages := [] }
        (some { slug := "five-whys", name := "Five Whys", price := 5,
                webhook_url := "https://api.example.com", message_limit := 50,
                agent_type := "chat", is_active := true })
        "s2" 0 =
      (StartOutcome.existingSession "s1",
        { wallet := { wallet_balance := 10, transactions := [] }
          sessions := [{ session_id := "s1", agent_slug := "five-whys",
                         status := SessionStatus.active, fee_charged := 5,
                         expires_at := 1000 }]
          messages := [] }) :=
  C8_existing_session_short_circuit
    { wallet := { wallet_balance := 10, transactions := [] }
      sessions := [{ session_id := "s1", agent_slug := "five-whys",
                     status := SessionStatus.active, fee_charged := 5,
                     expires_at := 1000 }]
      messages := [] }
    { slug := "five-whys", name := "Five Whys", price := 5,
      webhook_url := "https://api.example.com", message_limit := 50,
      agent_type := "chat", is_active := true }
    "s2" 0
    { session_id := "s1", agent_slug := "five-whys",
      status := SessionStatus.active, fee_charged := 5, expires_at := 1000 }
    (by decide) (by decide) (by decide) (by rfl)

/-! ## Gateway normalization theorems -/

set_option maxRecDepth 8192

/-- The spec-side normalization is exactly the shape dispatch followed by
rendering, with the fallback when no candidate matched. -/
theorem normalizeSpec_eq_rawDispatch (body : Json) :
    normalizeSpec body =
      (match agentResponseRaw body with
       | some v => pyStr v
       | none => fallbackDebugString body) := by
  cases body with
  | str s => rfl
  | num n => rfl
  | bool b => rfl
  | null => rfl
  | obj fields => cases findResponseField fields <;> rfl
  | arr items =>
    cases items with
    | nil => rfl
    | cons first rest =>
      cases first with
      | obj fields => cases findResponseField fields <;> rfl
      | str s => rfl
      | num n => rfl
      | bool b => rfl
      | null => rfl
      | arr inner => rfl

/-- Claim C9: the stored agent text is a total function of the decoded
reply body realizing the spec dispatch — unwrap a non-empty array to its
first element, search objects for the candidate field names in priority
order, use bare strings directly, and otherwise produce the truncated
debug rendering of the raw payload (totality is inherent: the embedding
returns a string on every body).  The hypothesis excludes the one shape
the claim leaves unspecified: a matched field whose value is JSON `null`,
where Python conflates the match with "nothing matched" and the code
falls back to the debug rendering. -/
theorem C9_normalization (body : Json) (h : matchedNull body = false) :
    normalizeGatewayResponse body = normalizeSpec body := by
  rw [normalizeSpec_eq_rawDispatch]
  unfold normalizeGatewayResponse
  unfold matchedNull at h
  cases hr : agentResponseRaw body with
  | none => simp
  | some v =>
    rw [hr] at h
    cases v with
    | str s => rfl
    | num n => rfl
    | bool b => rfl
    | null => simp at h
    | arr items => rfl
    | obj fields => rfl

/-- Witness for C9 at the spec\x27s first table row. -/
theorem C9_normalization_witness :
    matchedNull (Json.obj [("output", Json.str "hi")]) = false ∧
    normalizeGatewayResponse (Json.obj [("output", Json.str "hi")]) =
      normalizeSpec (Json.obj [("output", Json.str "hi")]) :=
  ⟨by decide, C9_normalization (Json.obj [("output", Json.str "hi")]) (by decide)⟩

/-! ## Webhook validator theorems -/

/-- `http://169.254.169.254/` as `urlparse` decomposes it. -/
def urlLinkLocalMetadata : UrlParts :=
  { raw := "http://169.254.169.254/", scheme := "http",
    hostname := "169.254.169.254", port := none }

/-- `https://api.example.com` as `urlparse` decomposes it. -/
def urlApiExample : UrlParts :=
  { raw := "https://api.example.com", scheme := "https",
    hostname := "api.example.com", port := none }

/-- `http://localhost:5678` as `urlparse` decomposes it. -/
def urlLocalhost5678 : UrlParts :=
  { raw := "http://localhost:5678", scheme := "http",
    hostname := "localhost", port := some 5678 }

/-- `http://localhost:9999` as `urlparse` decomposes it. -/
def urlLocalhost9999 : UrlParts :=
  { raw := "http://localhost:9999", scheme := "http",
    hostname := "localhost", port := some 9999 }

/-- Claim C10: evaluation of the validator on the claim\x27s inputs
(`false` = strict/production mode, `true` = permissive/development mode).
The first five conjuncts confirm the claim; the last contradicts its
final part: `http://localhost:9999` is ACCEPTED in permissive mode.  The
hostname `localhost` is not an IP literal, so `ipaddress.ip_address`
raises the swallowed "not an IP" error and the loopback port allow-list
of the IP branch is never consulted; control falls through the
(production-only) domain checks and returns success.  The allow-list is
enforced for `http://127.0.0.1:9999` but not for the spelled-out
`localhost`, although line 51 of `agents/utils.py` treats the two
hostnames as synonyms — the fall-through contradicts the code\x27s own
intent, an SSRF-guard slip. -/
theorem C10_validator_evaluation :
    urlAccepted false urlLinkLocalMetadata = false ∧
    urlAccepted true urlLinkLocalMetadata = false ∧
    urlAccepted false urlApiExample = true ∧
    urlAccepted true urlLocalhost5678 = true ∧
    urlAccepted false urlLocalhost5678 = false ∧
    urlAccepted false urlLocalhost9999 = false ∧
    urlAccepted true urlLocalhost9999 = true := by
  decide
